import Mathlib

/-!
Verification of the redback data-acquisition pipeline (redback/getdata.py).

The Python module is shallowly embedded: pure transformations become Lean
functions; the filesystem is an association list from path to file content;
network traffic is recorded as the list of URLs touched; Python exceptions
become an explicit error type threaded through an `Except` result.  Remote
services (HTTP responses, downloaded payloads, the scripted browser session)
are oracles passed as parameters, following the specification, which treats
the browser driver as an opaque collaborator.
-/

set_option autoImplicit false

/-- Python exceptions that the embedded code can raise. -/
inductive PyErr where
  | valueError
  | websiteExist
  | dataExists
  | nameError
  | indexError
  | typeError
  | fileNotFoundError
  | runtimeError
  deriving DecidableEq

/-- A row of the open-transient-catalog raw photometry CSV
(time, magnitude, e_magnitude, band, system). -/
structure CatalogRow where
  time : Rat
  magnitude : Rat
  e_magnitude : Rat
  band : String
  system : String
  deriving DecidableEq

/-- A catalog row after the normalizer has appended the `flux(mjy)` and
`flux_error` columns. -/
structure FluxRow where
  base : CatalogRow
  flux : Real
  fluxError : Real

/-- A fully processed open-catalog row, additionally carrying the
`time (days)` column. -/
structure ProcRow where
  base : CatalogRow
  flux : Real
  fluxError : Real
  timeDays : Rat

/-- One row of the fixed-column XRT numeric matrix: the six columns that
`process_xrt_data` names. -/
structure XrtRow where
  time : Rat
  timepos : Rat
  timeneg : Rat
  flux : Rat
  fluxpos : Rat
  fluxneg : Rat
  deriving DecidableEq

/- ---------------------------------------------------------------------
Pure helpers for the sectioned-text parser (`sort_integrated_flux_data`).
--------------------------------------------------------------------- -/

/-- Python `line[0]`.  File iteration in Python never yields an empty string
(every line carries at least its newline), so the default is irrelevant on
the Python-reachable domain; theorems restrict to nonempty lines. -/
def pyFirst (l : String) : Char := l.data.headD (' ')

/-- Python `line[a:b]` on a string (slices clamp, never fail). -/
def pySlice (l : String) (a b : Nat) : String := String.mk ((l.data.drop a).take (b - a))

/-- Python `line[2:13] == 'batSNR4flux'`. -/
def isBatHeader (l : String) : Bool := pySlice l 2 13 == ("batSNR4flux")

/-- Python `line[2:11] == 'xrtpcflux'`. -/
def isPcHeader (l : String) : Bool := pySlice l 2 11 == ("xrtpcflux")

/-- Python `line[2:11] == 'xrtwtflux'`. -/
def isWtHeader (l : String) : Bool := pySlice l 2 11 == ("xrtwtflux")

/-- Python `int(line[0])` succeeding: the first character is a decimal digit
(ASCII digits; Python additionally accepts other Unicode decimal digits,
which do not occur in the Swift data format). -/
def digitLeading (l : String) : Bool := (pyFirst l).isDigit

/-- The line-scanning loop of `sort_integrated_flux_data`, with its three
integer flags `xrtpcflag`, `batflag`, `xrtwtflag`.  A header line first
switches the flags and is then itself appended to the newly active buffer,
exactly as in the source; the result is `(xrtpc, bat, xrtwt)`. -/
def scanLoop : List String → Nat → Nat → Nat → List String × List String × List String
  | [], _, _, _ => ([], [], [])
  | l :: rest, xrtpcflag, batflag, xrtwtflag =>
    let flags :=
      if pyFirst l == ('!') then
        if isBatHeader l then (0, 1, 0)
        else if isPcHeader l then (1, 0, 0)
        else if isWtHeader l then (0, 0, 1)
        else (0, 0, 0)
      else (xrtpcflag, batflag, xrtwtflag)
    let r := scanLoop rest flags.1 flags.2.1 flags.2.2
    ((if flags.1 = 1 then l :: r.1 else r.1),
     (if flags.2.1 = 1 then l :: r.2.1 else r.2.1),
     (if flags.2.2 = 1 then l :: r.2.2 else r.2.2))

/-- The lines written to the output file by `sort_integrated_flux_data`:
three fixed headers in fixed order (BAT, then XRT-WT, then XRT-PC), each
followed by the integer-leading lines of its buffer, with blank-line
separators, exactly as the sequence of `out.write` calls in the source. -/
def sortIntegratedLines (lines : List String) : List String :=
  let r := scanLoop lines 0 0 0
  [("## BAT - batSNR4flux\n")] ++ r.2.1.filter digitLeading
    ++ [("\n"), ("## XRT - xrtwtflux\n")] ++ r.2.2.filter digitLeading
    ++ [("\n"), ("## XRT - xrtpcflux\n")] ++ r.1.filter digitLeading

/-- The three section labels of the Swift integrated-flux format. -/
inductive SectionLabel where
  | bat
  | xrtwt
  | xrtpc
  deriving DecidableEq

/-- Specification-side section assignment: the active section after seeing a
line, per the spec invariant — a header line switches to its section, an
unrecognized sentinel line resets to no section, any other line leaves the
active section unchanged. -/
def headerUpdate (st : Option SectionLabel) (l : String) : Option SectionLabel :=
  if pyFirst l == ('!') then
    if isBatHeader l then some SectionLabel.bat
    else if isPcHeader l then some SectionLabel.xrtpc
    else if isWtHeader l then some SectionLabel.xrtwt
    else none
  else st

/-- Specification-side: the lines of the input belonging to section `s`,
starting from active section `st` — each line belongs to the section made
active by the most recent header at or before it, and lines before any
header belong to no section. -/
def sectionLines : Option SectionLabel → List String → SectionLabel → List String
  | _, [], _ => []
  | st, l :: rest, s =>
    let st' := headerUpdate st l
    (if st' = some s then [l] else []) ++ sectionLines st' rest s

/- ---------------------------------------------------------------------
`process_xrt_data`: the fixed-column XRT parser.
--------------------------------------------------------------------- -/

/-- Recombining the six named column vectors into rows, as the dict pushed
into the data frame does. -/
def zipCols : List Rat → List Rat → List Rat → List Rat → List Rat → List Rat → List XrtRow
  | t :: ts, tp :: tps, tn :: tns, f :: fs, fp :: fps, fn :: fns =>
    ⟨t, tp, tn, f, fp, fn⟩ :: zipCols ts tps tns fs fps fns
  | _, _, _, _, _, _ => []

/-- `process_xrt_data`: split the loaded numeric matrix into the six named
columns, rebuild the frame, and keep the rows whose `fluxpos` column is
not exactly zero. -/
def process_xrt_data (rows : List XrtRow) : List XrtRow :=
  let time := rows.map (fun r => r.time)
  let timepos := rows.map (fun r => r.timepos)
  let timeneg := rows.map (fun r => r.timeneg)
  let flux := rows.map (fun r => r.flux)
  let fluxpos := rows.map (fun r => r.fluxpos)
  let fluxneg := rows.map (fun r => r.fluxneg)
  let data := zipCols time timepos timeneg flux fluxpos fluxneg
  data.filter (fun r => decide (r.fluxpos ≠ 0))

/- ---------------------------------------------------------------------
Path resolvers and the trigger-number lookup.
--------------------------------------------------------------------- -/

/-- Models `os.path.dirname(__file__)`, an environment-dependent constant;
it is only consulted when `use_default_directory` is true. -/
def dirname : String := ("redback")

/-- The allowed Swift prompt bin sizes. -/
def SWIFT_PROMPT_BIN_SIZES : List String := [("1s"), ("2ms"), ("8ms"), ("16ms"), ("64ms"), ("256ms")]

/-- `afterglow_directory_structure`: returns `(grb_dir, rawfile, fullfile)`. -/
def afterglow_directory_structure (grb : String) (useDefault : Bool) (dataMode : String)
    (instrument : String) : String × String × String :=
  let grbDir := (if useDefault then dirname ++ ("/../data/GRBData/GRB") ++ grb ++ ("/afterglow/")
      else ("GRBData/GRB") ++ grb ++ ("/afterglow/")) ++ dataMode ++ ("/")
  let rawfilePath := grbDir ++ ("GRB") ++ grb
  if instrument == ("xrt") then
    (grbDir, rawfilePath ++ ("_xrt_rawSwiftData.csv"), rawfilePath ++ ("_xrt_csv"))
  else
    (grbDir, rawfilePath ++ ("_rawSwiftData.csv"), rawfilePath ++ (".csv"))

/-- `prompt_directory_structure`: validates the bin size before touching the
filesystem, then returns the paths together with the list of directories it
creates (empty on the error path, since the `raise` precedes the `mkdir`). -/
def prompt_directory_structure (grb : String) (useDefault : Bool) (binSize : String) :
    Except PyErr (String × String × String) × List String :=
  if binSize ∈ SWIFT_PROMPT_BIN_SIZES then
    let grbDir := (if useDefault then dirname ++ ("/../data/GRBData/GRB") ++ grb ++ ("/")
        else ("GRBData/GRB") ++ grb ++ ("/")) ++ ("prompt/")
    (Except.ok (grbDir, grbDir ++ binSize ++ ("_lc_ascii.dat"), grbDir ++ binSize ++ ("_lc.csv")),
     [grbDir])
  else (Except.error PyErr.valueError, [])

/-- `transient_directory_structure`: returns
`(open_transient_dir, rawfile_path, fullfile_path)`. -/
def transient_directory_structure (transient : String) (useDefault : Bool)
    (transientType : String) : String × String × String :=
  let dir := if useDefault then dirname ++ ("/../data/") ++ transientType ++ ("Data/") ++ transient ++ ("/")
      else transientType ++ ("/") ++ transient ++ ("/")
  (dir, dir ++ transient ++ ("_rawdata.csv"), dir ++ transient ++ ("_data.csv"))

/-- `get_trigger_number` over the concatenated GRB lookup table (the two
tab-delimited table files are data shipped outside `src/`, so the table is a
parameter): the `Trigger Number` values of the rows whose `GRB` column equals
the name; the string `'0'` when there is none. -/
def get_trigger_number (table : List (String × String)) (grb : String) : String :=
  match (table.filter (fun row => decide (row.1 = grb))).map (fun row => row.2) with
  | [] => ("0")
  | t :: _ => t

/-- The burst-analyser URL built by the Swift fetchers:
`'http://www.swift.ac.uk/burst_analyser/00' + trigger + '/'`. -/
def burstAnalyserUrl (table : List (String × String)) (grb : String) : String :=
  ("http://www.swift.ac.uk/burst_analyser/00") ++ get_trigger_number table grb ++ ("/")

/- ---------------------------------------------------------------------
Unit conversions (redback/utils.py is not under src/).
--------------------------------------------------------------------- -/

/-- Modelled from the spec: `calc_fluxdensity_from_ABmag` lives in
redback/utils.py, which is absent from src/.  Per the spec glossary, AB
magnitude is a logarithmic brightness scale with fixed flux-density
zero-point 3631 Jy, so the flux density recovered from magnitude `m` is
`3631 * 10 ^ (-m / 2.5)`. -/
noncomputable def calc_fluxdensity_from_ABmag (m : Rat) : Real :=
  3631 * Real.rpow 10 (-(m : Real) / (5 / 2))

/-- Modelled from the spec: `calc_flux_density_error` lives in
redback/utils.py, which is absent from src/.  The spec asks for first-order
uncertainty propagation of the magnitude error through the AB conversion
with the given zero-point reference flux:
`(ln 10 / 2.5) * e * reference_flux * 10 ^ (-m / 2.5)`. -/
noncomputable def calc_flux_density_error (m e : Rat) (referenceFlux : Rat)
    (_magnitudeSystem : String) : Real :=
  (Real.log 10 / (5 / 2)) * (e : Real) * ((referenceFlux : Real) * Real.rpow 10 (-(m : Real) / (5 / 2)))

/-- The band/system filter of `sort_open_access_data`, in source order:
drop band C, drop band W, keep only system AB. -/
def filterBandSystem (rows : List CatalogRow) : List CatalogRow :=
  ((rows.filter (fun r => decide (r.band ≠ ("C")))).filter
      (fun r => decide (r.band ≠ ("W")))).filter (fun r => decide (r.system = ("AB")))

/-- Appending the `flux(mjy)` and `flux_error` columns, with the fixed
reference flux 3631 passed exactly as at the call site. -/
noncomputable def addFluxCols (r : CatalogRow) : FluxRow :=
  ⟨r, calc_fluxdensity_from_ABmag r.magnitude,
    calc_flux_density_error r.magnitude r.e_magnitude 3631 ("AB")⟩

/-- The filter-then-convert stage of `sort_open_access_data`. -/
noncomputable def openAccessWithFlux (rows : List CatalogRow) : List FluxRow :=
  (filterBandSystem rows).map addFluxCols

/-- Appending the `time (days)` column: `(t - timeofevent)` in days (both in
MJD, so the difference is already a day count). -/
def addTimeDays (t0 : Rat) (r : FluxRow) : ProcRow :=
  ⟨r.base, r.flux, r.fluxError, r.base.time - t0⟩

/- ---------------------------------------------------------------------
The world model: filesystem contents, network trace, exceptions.
--------------------------------------------------------------------- -/

/-- Contents of a file in the model, at the granularity the pipeline reads
them back: the Swift afterglow text formats keep their lines, the numeric
formats keep their parsed matrices, the catalog formats keep their rows.
`metaCsv` carries the `timeofmerger` value of the metadata's first row,
with `none` standing for Python NaN (an empty field). -/
inductive FileContent where
  | text (lines : List String)
  | xrtRaw (rows : List XrtRow)
  | xrtCsv (rows : List XrtRow)
  | promptDat (rows : List (List Rat))
  | promptCsv (rows : List (List Rat))
  | catalogCsv (rows : List CatalogRow)
  | metaCsv (timeofmerger : Option Rat)
  | processedCsv (rows : List ProcRow)

/-- The filesystem: an association list from path to content; a later write
to the same path shadows the earlier one. -/
abbrev FSt := List (String × FileContent)

/-- `os.path.isfile` / reading: first binding for the path. -/
def FSt.lookup : FSt → String → Option FileContent
  | [], _ => none
  | (p, c) :: rest, q => if p = q then some c else FSt.lookup rest q

/-- Writing a file. -/
def FSt.insert (fs : FSt) (p : String) (c : FileContent) : FSt := (p, c) :: fs

/-- The outcome of running one embedded Python function: the filesystem
afterwards, the URLs touched on the network (requests, downloads and browser
navigations, in order), and the returned value or the exception raised. -/
structure Run (α : Type) where
  fs : FSt
  net : List String
  result : Except PyErr α

/-- The datasets (pandas frames) the entry points hand back to callers.
`promptTabReread` marks the cache-hit path of `sort_swift_prompt_data`,
which re-reads with `sep='\t'` a file that was written comma-separated, so
the reread frame is not the frame that was written. -/
inductive Dataset where
  | promptFrame (rows : List (List Rat))
  | promptTabReread (rows : List (List Rat))
  | catalogFrame (rows : List ProcRow)

/-- The scripted browser session, as the opaque capability the spec
describes: `navigate` is the initial `driver.get` (outside any handler in
the source), `interact` is the click/sleep sequence, ending in the download
URL read from the location bar. -/
structure Driver where
  navigate : Except PyErr Unit
  interact : Except PyErr String

/- ---------------------------------------------------------------------
Embeddings of the stateful functions of getdata.py.
--------------------------------------------------------------------- -/

/-- `get_t0_from_grb` reads the name `timeofevent`, which is bound nowhere
in its scope (it is neither a parameter nor a module global), so Python
raises `NameError` on entry, before any lookup or warning can happen. -/
def get_t0_from_grb (_transient : String) : Except PyErr Rat :=
  Except.error PyErr.nameError

/-- `process_fluxdensity_data`: navigate to the burst-analyser page
(outside the handler), then run the interactive sequence; any exception in
the sequence is caught and only logged, so the function returns normally
with the raw file still absent; on success the resolved URL is retrieved
into the raw file. -/
def process_fluxdensity_data (drv : Driver) (dl : String → FileContent)
    (table : List (String × String)) (grb rawfile : String) (fs : FSt) : Run Unit :=
  let url := burstAnalyserUrl table grb
  match drv.navigate with
  | Except.error e => ⟨fs, [url], Except.error e⟩
  | Except.ok _ =>
    match drv.interact with
    | Except.error _ => ⟨fs, [url], Except.ok ()⟩
    | Except.ok grbUrl => ⟨fs.insert rawfile (dl grbUrl), [url, grbUrl], Except.ok ()⟩

/-- `process_integrated_flux_data`: same interactive sequence against the
burst-analyser page, but the source wraps none of it in a handler, so an
exception anywhere — navigation or interaction — propagates to the caller. -/
def process_integrated_flux_data (drv : Driver) (dl : String → FileContent)
    (table : List (String × String)) (grb rawfile : String) (fs : FSt) : Run Unit :=
  let url := burstAnalyserUrl table grb
  match drv.navigate with
  | Except.error e => ⟨fs, [url], Except.error e⟩
  | Except.ok _ =>
    match drv.interact with
    | Except.error e => ⟨fs, [url], Except.error e⟩
    | Except.ok grbUrl => ⟨fs.insert rawfile (dl grbUrl), [url, grbUrl], Except.ok ()⟩

/-- `collect_swift_data`.  The web oracle answers whether the page body
contains the no-data marker.  The returned value is the tuple of paths the
Python function returns — three paths when the raw file already existed,
two after a fetch; the caller's unpacking arity is checked there. -/
def collect_swift_data (web : String → Bool) (dl : String → FileContent) (drv : Driver)
    (table : List (String × String)) (grb : String) (useDefault : Bool) (dataMode : String)
    (fs : FSt) : Run (List String) :=
  if dataMode ∈ [("flux"), ("flux_density")] then
    let p := afterglow_directory_structure grb useDefault dataMode ("BAT+XRT")
    if (fs.lookup p.2.1).isSome then ⟨fs, [], Except.ok [p.1, p.2.1, p.2.2]⟩
    else
      let url := burstAnalyserUrl table grb
      if web url then ⟨fs, [url], Except.error PyErr.websiteExist⟩
      else
        let o := if dataMode == ("flux") then process_integrated_flux_data drv dl table grb p.2.1 fs
          else process_fluxdensity_data drv dl table grb p.2.1 fs
        match o.result with
        | Except.error e => ⟨o.fs, url :: o.net, Except.error e⟩
        | Except.ok _ => ⟨o.fs, url :: o.net, Except.ok [p.2.1, p.2.2]⟩
  else ⟨fs, [], Except.error PyErr.valueError⟩

/-- `sort_integrated_flux_data` as a filesystem step: a missing raw file is
an `IOError` that the source catches (and whose `sys.exit` it also
catches), ending the phase normally with nothing written; otherwise the
sorted lines are written to the full file. -/
def sort_integrated_flux_data (rawfile fullfile : String) (fs : FSt) : Run Unit :=
  match fs.lookup rawfile with
  | none => ⟨fs, [], Except.ok ()⟩
  | some (FileContent.text lines) =>
    ⟨fs.insert fullfile (FileContent.text (sortIntegratedLines lines)), [], Except.ok ()⟩
  | some _ => ⟨fs, [], Except.error PyErr.typeError⟩

/-- `sort_fluxdensity_data` only logs; it writes nothing. -/
def sort_fluxdensity_data (_rawfile _fullfile : String) (fs : FSt) : Run Unit :=
  ⟨fs, [], Except.ok ()⟩

/-- `sort_swift_data`: short-circuit when the processed file exists, raise
`DataExists` when the raw file is missing, otherwise dispatch on the data
mode. -/
def sort_swift_data (rawfile fullfile dataMode : String) (fs : FSt) : Run Unit :=
  if (fs.lookup fullfile).isSome then ⟨fs, [], Except.ok ()⟩
  else if (fs.lookup rawfile).isNone then ⟨fs, [], Except.error PyErr.dataExists⟩
  else if dataMode == ("flux") then sort_integrated_flux_data rawfile fullfile fs
  else sort_fluxdensity_data rawfile fullfile fs

/-- `get_afterglow_data_from_swift`: collect, then unpack
`rawfile, fullfile = collect_swift_data(...)` — a `ValueError` when the
collect phase returned its three-element cached tuple — then sort, and
return Python `None`. -/
def get_afterglow_data_from_swift (web : String → Bool) (dl : String → FileContent)
    (drv : Driver) (table : List (String × String)) (grb : String) (dataMode : String)
    (useDefault : Bool) (fs : FSt) : Run (Option Dataset) :=
  let c := collect_swift_data web dl drv table grb useDefault dataMode fs
  match c.result with
  | Except.error e => ⟨c.fs, c.net, Except.error e⟩
  | Except.ok paths =>
    match paths with
    | [rawfile, fullfile] =>
      let s := sort_swift_data rawfile fullfile dataMode c.fs
      match s.result with
      | Except.error e => ⟨s.fs, c.net ++ s.net, Except.error e⟩
      | Except.ok _ => ⟨s.fs, c.net ++ s.net, Except.ok none⟩
    | _ => ⟨c.fs, c.net, Except.error PyErr.valueError⟩

/-- `get_xrt_data_from_swift`: no existence check of any kind — on every
invocation it queries the flux.qdp endpoint, downloads it, reprocesses and
rewrites both files, and returns Python `None`. -/
def get_xrt_data_from_swift (web : String → Bool) (dl : String → FileContent)
    (table : List (String × String)) (grb : String) (dataMode : String)
    (useDefault : Bool) (fs : FSt) : Run (Option Dataset) :=
  let p := afterglow_directory_structure grb useDefault dataMode ("xrt")
  let url := ("https://www.swift.ac.uk/xrt_curves/00") ++ get_trigger_number table grb ++ ("/flux.qdp")
  if web url then ⟨fs, [url], Except.error PyErr.websiteExist⟩
  else
    match dl url with
    | FileContent.xrtRaw rows =>
      let fs1 := (fs.insert p.2.1 (FileContent.xrtRaw rows))
      ⟨fs1.insert p.2.2 (FileContent.xrtCsv (process_xrt_data rows)), [url, url], Except.ok none⟩
    | _ => ⟨fs.insert p.2.1 (dl url), [url, url], Except.error PyErr.typeError⟩

/-- `collect_swift_prompt_data`: resolve prompt paths (which can raise for a
bad bin size), short-circuit when the raw file exists, otherwise navigate
(outside the handler) and run the interactive sequence, whose exceptions
are caught and only logged; on success the bin-size light-curve file is
retrieved from the final location URL. -/
def collect_swift_prompt_data (drv : Driver) (dl : String → FileContent)
    (grb : String) (useDefault : Bool) (binSize : String) (fs : FSt) : Run Unit :=
  match (prompt_directory_structure grb useDefault binSize).1 with
  | Except.error e => ⟨fs, [], Except.error e⟩
  | Except.ok p =>
    if (fs.lookup p.2.1).isSome then ⟨fs, [], Except.ok ()⟩
    else
      let grb1 := if String.startsWith grb ("GRB") then grb else ("GRB") ++ grb
      let url := ("https://swift.gsfc.nasa.gov/results/batgrbcat/") ++ grb1 ++ ("/data_product/")
      match drv.navigate with
      | Except.error e => ⟨fs, [url], Except.error e⟩
      | Except.ok _ =>
        match drv.interact with
        | Except.error _ => ⟨fs, [url], Except.ok ()⟩
        | Except.ok current =>
          let grbUrl := current ++ binSize ++ ("_lc_ascii.dat")
          ⟨fs.insert p.2.1 (dl grbUrl), [url, grbUrl], Except.ok ()⟩

/-- `sort_swift_prompt_data`: resolves paths with the DEFAULT bin size
`'2ms'` (the source passes no bin size here); a cache hit re-reads the
processed file with `sep='\t'` although it was written comma-separated,
which the `promptTabReread` constructor records; a missing raw file raises
`DataExists`; otherwise the matrix becomes the frame, is written out, and
is returned. -/
def sort_swift_prompt_data (grb : String) (useDefault : Bool) (fs : FSt) : Run Dataset :=
  match (prompt_directory_structure grb useDefault ("2ms")).1 with
  | Except.error e => ⟨fs, [], Except.error e⟩
  | Except.ok p =>
    match fs.lookup p.2.2 with
    | some (FileContent.promptCsv rows) => ⟨fs, [], Except.ok (Dataset.promptTabReread rows)⟩
    | some _ => ⟨fs, [], Except.error PyErr.typeError⟩
    | none =>
      match fs.lookup p.2.1 with
      | none => ⟨fs, [], Except.error PyErr.dataExists⟩
      | some (FileContent.promptDat rows) =>
        ⟨fs.insert p.2.2 (FileContent.promptCsv rows), [], Except.ok (Dataset.promptFrame rows)⟩
      | some _ => ⟨fs, [], Except.error PyErr.typeError⟩

/-- `get_prompt_data_from_swift`: collect then sort, returning the sorted
frame. -/
def get_prompt_data_from_swift (drv : Driver) (dl : String → FileContent)
    (grb : String) (binSize : String) (useDefault : Bool) (fs : FSt) : Run Dataset :=
  let c := collect_swift_prompt_data drv dl grb useDefault binSize fs
  match c.result with
  | Except.error e => ⟨c.fs, c.net, Except.error e⟩
  | Except.ok _ =>
    let s := sort_swift_prompt_data grb useDefault c.fs
    ⟨s.fs, c.net ++ s.net, s.result⟩

/-- The astrocats photometry query URL for a transient. -/
def catalogUrl (transient : String) : String :=
  ("https://api.astrocats.space/") ++ transient
    ++ ("/photometry/time+magnitude+e_magnitude+band+system?e_magnitude&band&time&format=csv&complete")

/-- The astrocats metadata query URL for a transient. -/
def catalogMetaUrl (transient : String) : String :=
  ("https://api.astrocats.space/") ++ transient
    ++ ("/timeofmerger+discoverdate+redshift+ra+dec+host?format=CSV")

/-- `collect_open_catalog_data`: short-circuit when the raw file exists;
raise for a transient type without open-access data; query the catalog (a
network call made before the processed-file check); raise when the catalog
reports the transient unknown; short-circuit when the processed file
exists; otherwise retrieve the photometry and then the metadata. -/
def collect_open_catalog_data (web : String → Bool) (dl : String → FileContent)
    (transient : String) (useDefault : Bool) (transientType : String) (fs : FSt) : Run Unit :=
  let p := transient_directory_structure transient useDefault transientType
  if (fs.lookup p.2.1).isSome then ⟨fs, [], Except.ok ()⟩
  else if transientType ∈ [("kilonova"), ("supernova"), ("tidal_disruption_event")] then
    let url := catalogUrl transient
    if web url then ⟨fs, [url], Except.error PyErr.websiteExist⟩
    else if (fs.lookup p.2.2).isSome then ⟨fs, [url], Except.ok ()⟩
    else
      let metaPath := p.1 ++ ("metadata.csv")
      let fs1 := fs.insert p.2.1 (dl url)
      ⟨fs1.insert metaPath (dl (catalogMetaUrl transient)), [url, url, catalogMetaUrl transient],
        Except.ok ()⟩
  else ⟨fs, [], Except.error PyErr.websiteExist⟩

/-- `sort_open_access_data`: a cache hit returns the processed file as
read; a missing raw file raises `DataExists`; otherwise the band/system
filter and flux conversion run, the metadata file is read (raising the
Python file-not-found error when absent), the epoch fallback of the source
runs — the kilonova branch calls `get_t0_from_grb`, the non-kilonova branch
falls back to the first filtered row's time (`IndexError` on an empty
frame) — and the finished frame is written and returned. -/
noncomputable def sort_open_access_data (transient : String) (useDefault : Bool)
    (transientType : String) (fs : FSt) : Run Dataset :=
  let p := transient_directory_structure transient useDefault transientType
  match fs.lookup p.2.2 with
  | some (FileContent.processedCsv rows) => ⟨fs, [], Except.ok (Dataset.catalogFrame rows)⟩
  | some _ => ⟨fs, [], Except.error PyErr.typeError⟩
  | none =>
    match fs.lookup p.2.1 with
    | none => ⟨fs, [], Except.error PyErr.dataExists⟩
    | some (FileContent.catalogCsv raw) =>
      let data := openAccessWithFlux raw
      match fs.lookup (p.1 ++ ("metadata.csv")) with
      | none => ⟨fs, [], Except.error PyErr.fileNotFoundError⟩
      | some (FileContent.metaCsv tom) =>
        let step1 : Except PyErr (Option Rat) :=
          if tom.isNone && (transientType == ("kilonova"))
            then (get_t0_from_grb transient).map some else Except.ok tom
        match step1 with
        | Except.error e => ⟨fs, [], Except.error e⟩
        | Except.ok tom1 =>
          let step2 : Except PyErr Rat :=
            if tom1.isNone && !(transientType == ("kilonova")) then
              match data with
              | [] => Except.error PyErr.indexError
              | r :: _ => Except.ok r.base.time
            else
              match tom1 with
              | some v => Except.ok v
              | none => Except.ok 0
          match step2 with
          | Except.error e => ⟨fs, [], Except.error e⟩
          | Except.ok t0 =>
            let final := data.map (addTimeDays t0)
            ⟨fs.insert p.2.2 (FileContent.processedCsv final), [],
              Except.ok (Dataset.catalogFrame final)⟩
      | some _ => ⟨fs, [], Except.error PyErr.typeError⟩
    | some _ => ⟨fs, [], Except.error PyErr.typeError⟩

/-- `get_open_transient_catalog_data`: collect then sort, returning the
sorted frame. -/
noncomputable def get_open_transient_catalog_data (web : String → Bool)
    (dl : String → FileContent) (transient : String) (transientType : String)
    (useDefault : Bool) (fs : FSt) : Run Dataset :=
  let c := collect_open_catalog_data web dl transient useDefault transientType fs
  match c.result with
  | Except.error e => ⟨c.fs, c.net, Except.error e⟩
  | Except.ok _ =>
    let s := sort_open_access_data transient useDefault transientType c.fs
    ⟨s.fs, c.net ++ s.net, s.result⟩

/- ---------------------------------------------------------------------
Basic lemmas about the filesystem model and path distinctness.
--------------------------------------------------------------------- -/

theorem FSt.lookup_insert_self (fs : FSt) (p : String) (c : FileContent) :
    (fs.insert p c).lookup p = some c := by
  simp [FSt.insert, FSt.lookup]

theorem FSt.lookup_insert_ne (fs : FSt) (p q : String) (c : FileContent) (h : p ≠ q) :
    (fs.insert p c).lookup q = fs.lookup q := by
  simp [FSt.insert, FSt.lookup, h]

theorem append_ne_of_length_ne (s a b : String) (h : a.length ≠ b.length) :
    s ++ a ≠ s ++ b := by
  intro he
  apply h
  have h2 := congrArg String.length he
  simp only [String.length_append] at h2
  omega

/-- Two lists with a common suffix position at which their characters differ
are not related by prepending: the suffix is pinned from the right. -/
theorem ne_of_reverse_get (a b : List Char) (n : Nat) (hn : n < a.length)
    (hne : a.reverse[n]? ≠ b.reverse[n]?) (t : List Char) : t ++ a ≠ b := by
  intro he
  apply hne
  have hb : b.reverse = a.reverse ++ t.reverse := by
    rw [← he, List.reverse_append]
  rw [hb, List.getElem?_append_left]
  simpa using hn

theorem catalog_full_ne_meta (dir t : String) :
    dir ++ t ++ ("_data.csv") ≠ dir ++ ("metadata.csv") := by
  intro he
  have hd : dir.data ++ (t.data ++ ("_data.csv").data) = dir.data ++ ("metadata.csv").data := by
    have h0 := congrArg String.data he
    simpa [String.data_append, List.append_assoc] using h0
  exact ne_of_reverse_get _ _ 8 (by decide) (by decide) t.data (List.append_cancel_left hd)

theorem catalog_raw_ne_meta (dir t : String) :
    dir ++ t ++ ("_rawdata.csv") ≠ dir ++ ("metadata.csv") := by
  intro he
  have hd : dir.data ++ (t.data ++ ("_rawdata.csv").data) = dir.data ++ ("metadata.csv").data := by
    have h0 := congrArg String.data he
    simpa [String.data_append, List.append_assoc] using h0
  exact ne_of_reverse_get _ _ 8 (by decide) (by decide) t.data (List.append_cancel_left hd)

/- ---------------------------------------------------------------------
The sectioned-text parser refines the specification-side assignment.
--------------------------------------------------------------------- -/

/-- The xrtpcflag value corresponding to an active section. -/
def pcFlagOf (st : Option SectionLabel) : Nat := if st = some SectionLabel.xrtpc then 1 else 0

/-- The batflag value corresponding to an active section. -/
def batFlagOf (st : Option SectionLabel) : Nat := if st = some SectionLabel.bat then 1 else 0

/-- The xrtwtflag value corresponding to an active section. -/
def wtFlagOf (st : Option SectionLabel) : Nat := if st = some SectionLabel.xrtwt then 1 else 0

theorem pcFlag_cons (st : Option SectionLabel) (l : String) (x : List String) :
    (if pcFlagOf st = 1 then l :: x else x)
      = (if st = some SectionLabel.xrtpc then [l] else []) ++ x := by
  cases st with
  | none => simp [pcFlagOf]
  | some s => cases s <;> simp [pcFlagOf]

theorem batFlag_cons (st : Option SectionLabel) (l : String) (x : List String) :
    (if batFlagOf st = 1 then l :: x else x)
      = (if st = some SectionLabel.bat then [l] else []) ++ x := by
  cases st with
  | none => simp [batFlagOf]
  | some s => cases s <;> simp [batFlagOf]

theorem wtFlag_cons (st : Option SectionLabel) (l : String) (x : List String) :
    (if wtFlagOf st = 1 then l :: x else x)
      = (if st = some SectionLabel.xrtwt then [l] else []) ++ x := by
  cases st with
  | none => simp [wtFlagOf]
  | some s => cases s <;> simp [wtFlagOf]

/-- The flag update performed by the scanning loop is the flag image of the
specification-side section update. -/
theorem flags_step (st : Option SectionLabel) (l : String) :
    (if pyFirst l == ('!') then
        if isBatHeader l then ((0 : Nat), (1 : Nat), (0 : Nat))
        else if isPcHeader l then (1, 0, 0)
        else if isWtHeader l then (0, 0, 1)
        else (0, 0, 0)
      else (pcFlagOf st, batFlagOf st, wtFlagOf st))
      = (pcFlagOf (headerUpdate st l), batFlagOf (headerUpdate st l), wtFlagOf (headerUpdate st l)) := by
  unfold headerUpdate
  split_ifs <;> rfl

/-- The three buffers accumulated by the scanning loop of
`sort_integrated_flux_data` are exactly the specification-side section
assignments, for any starting section. -/
theorem scanLoop_eq (lines : List String) : ∀ st : Option SectionLabel,
    scanLoop lines (pcFlagOf st) (batFlagOf st) (wtFlagOf st)
      = (sectionLines st lines SectionLabel.xrtpc,
         sectionLines st lines SectionLabel.bat,
         sectionLines st lines SectionLabel.xrtwt) := by
  induction lines with
  | nil => intro st; rfl
  | cons l rest ih =>
    intro st
    show scanLoop (l :: rest) (pcFlagOf st) (batFlagOf st) (wtFlagOf st) = _
    rw [scanLoop]
    rw [flags_step st l]
    rw [ih (headerUpdate st l)]
    rw [sectionLines, sectionLines, sectionLines]
    rw [pcFlag_cons, batFlag_cons, wtFlag_cons]

/- ---------------------------------------------------------------------
Claim C5: the sectioned-text parser.
--------------------------------------------------------------------- -/

/-- Claim C5: for every input (of nonempty lines, as Python file iteration
yields), the output of the sectioned-text parser is exactly the
integer-leading lines of each labeled section, grouped under the three
fixed headers in the fixed order BAT, XRT-WT, XRT-PC, with non-numeric
lines excluded; lines before any header belong to no section and are
dropped, and a header line makes all subsequent lines belong to its
section until a new header or reset line appears. -/
theorem c5_sectioned_text_output (lines : List String)
    (_hne : ∀ l ∈ lines, l ≠ ("")) :
    sortIntegratedLines lines
      = [("## BAT - batSNR4flux\n")]
          ++ (sectionLines none lines SectionLabel.bat).filter digitLeading
          ++ [("\n"), ("## XRT - xrtwtflux\n")]
          ++ (sectionLines none lines SectionLabel.xrtwt).filter digitLeading
          ++ [("\n"), ("## XRT - xrtpcflux\n")]
          ++ (sectionLines none lines SectionLabel.xrtpc).filter digitLeading := by
  have hs : scanLoop lines 0 0 0
      = (sectionLines none lines SectionLabel.xrtpc,
         sectionLines none lines SectionLabel.bat,
         sectionLines none lines SectionLabel.xrtwt) := scanLoop_eq lines none
  rw [sortIntegratedLines, hs]

/-- Witness for C5, on the end-to-end scenario of the spec: two valid BAT
rows, one valid XRT-WT row, no valid XRT-PC row, junk interleaved. -/
theorem c5_sectioned_text_output_witness :
    (∀ l ∈ ([("junk before any header\n"), ("! batSNR4flux\n"), ("1 2.0 0.1\n"),
        ("NO DATA here\n"), ("2 3.0 0.2\n"), ("! xrtwtflux\n"), ("7 8.0 0.3\n"),
        ("! unrecognized reset\n"), ("9 9.9 0.9\n"), ("! xrtpcflux\n"),
        ("junk tail\n")] : List String), l ≠ ("")) ∧
    sortIntegratedLines [("junk before any header\n"), ("! batSNR4flux\n"), ("1 2.0 0.1\n"),
        ("NO DATA here\n"), ("2 3.0 0.2\n"), ("! xrtwtflux\n"), ("7 8.0 0.3\n"),
        ("! unrecognized reset\n"), ("9 9.9 0.9\n"), ("! xrtpcflux\n"), ("junk tail\n")]
      = [("## BAT - batSNR4flux\n")]
          ++ (sectionLines none [("junk before any header\n"), ("! batSNR4flux\n"), ("1 2.0 0.1\n"),
              ("NO DATA here\n"), ("2 3.0 0.2\n"), ("! xrtwtflux\n"), ("7 8.0 0.3\n"),
              ("! unrecognized reset\n"), ("9 9.9 0.9\n"), ("! xrtpcflux\n"),
              ("junk tail\n")] SectionLabel.bat).filter digitLeading
          ++ [("\n"), ("## XRT - xrtwtflux\n")]
          ++ (sectionLines none [("junk before any header\n"), ("! batSNR4flux\n"), ("1 2.0 0.1\n"),
              ("NO DATA here\n"), ("2 3.0 0.2\n"), ("! xrtwtflux\n"), ("7 8.0 0.3\n"),
              ("! unrecognized reset\n"), ("9 9.9 0.9\n"), ("! xrtpcflux\n"),
              ("junk tail\n")] SectionLabel.xrtwt).filter digitLeading
          ++ [("\n"), ("## XRT - xrtpcflux\n")]
          ++ (sectionLines none [("junk before any header\n"), ("! batSNR4flux\n"), ("1 2.0 0.1\n"),
              ("NO DATA here\n"), ("2 3.0 0.2\n"), ("! xrtwtflux\n"), ("7 8.0 0.3\n"),
              ("! unrecognized reset\n"), ("9 9.9 0.9\n"), ("! xrtpcflux\n"),
              ("junk tail\n")] SectionLabel.xrtpc).filter digitLeading :=
  ⟨by decide, c5_sectioned_text_output _ (by decide)⟩

/- ---------------------------------------------------------------------
Claim C7: the fixed-column XRT parser.
--------------------------------------------------------------------- -/

theorem zipCols_maps (rows : List XrtRow) :
    zipCols (rows.map (fun r => r.time)) (rows.map (fun r => r.timepos))
        (rows.map (fun r => r.timeneg)) (rows.map (fun r => r.flux))
        (rows.map (fun r => r.fluxpos)) (rows.map (fun r => r.fluxneg)) = rows := by
  induction rows with
  | nil => rfl
  | cons r rest ih => simp [zipCols, ih]

/-- Claim C7: for every numeric matrix handed to the fixed-column XRT
parser, the rows whose positive-flux-error column is exactly zero are
excluded and every other row passes through with all six field values
unchanged: the output is precisely the input filtered on a nonzero
`fluxpos`. -/
theorem c7_xrt_zero_fluxpos_filter (rows : List XrtRow) :
    process_xrt_data rows = rows.filter (fun r => decide (r.fluxpos ≠ 0)) := by
  simp only [process_xrt_data]
  rw [zipCols_maps]

/- ---------------------------------------------------------------------
Claim C6: the open-catalog normalizer filter and AB conversion.
--------------------------------------------------------------------- -/

theorem filterBandSystem_eq (rows : List CatalogRow) :
    filterBandSystem rows
      = rows.filter (fun r => r.system == ("AB") && !(List.elem r.band [("C"), ("W")])) := by
  induction rows with
  | nil => rfl
  | cons r rest ih =>
    by_cases hC : r.band = ("C") <;> by_cases hW : r.band = ("W") <;>
      by_cases hS : r.system = ("AB") <;>
        simp_all [filterBandSystem, List.filter_cons, List.elem_cons]

/-- Claim C6: the normalizer keeps exactly the rows whose system column is
AB and whose band column is outside the excluded set, and converts
magnitude and magnitude error to flux density and flux-density error
through the fixed AB zero-point reference flux 3631. -/
theorem c6_normalizer_filter_and_conversion (rows : List CatalogRow) :
    openAccessWithFlux rows
        = (rows.filter (fun r => r.system == ("AB")
            && !(List.elem r.band [("C"), ("W")]))).map addFluxCols
      ∧ (openAccessWithFlux rows).map (fun r => r.flux)
          = (filterBandSystem rows).map
              (fun r => (3631 : Real) * Real.rpow 10 (-(r.magnitude : Real) / (5 / 2)))
      ∧ (openAccessWithFlux rows).map (fun r => r.fluxError)
          = (filterBandSystem rows).map
              (fun r => (Real.log 10 / (5 / 2)) * (r.e_magnitude : Real)
                * (((3631 : Rat) : Real) * Real.rpow 10 (-(r.magnitude : Real) / (5 / 2)))) := by
  refine ⟨?_, ?_, ?_⟩
  · rw [openAccessWithFlux, filterBandSystem_eq]
  · rw [openAccessWithFlux, List.map_map]
    rfl
  · rw [openAccessWithFlux, List.map_map]
    rfl

/- ---------------------------------------------------------------------
Claim C9: prompt directory resolver bin-size validation.
--------------------------------------------------------------------- -/

/-- Claim C9: a binning value outside the fixed allowed set of six bin
sizes makes the prompt directory resolver fail with the configuration
error before creating any directory, and every member of the set
succeeds. -/
theorem c9_prompt_bin_validation (grb : String) (useDefault : Bool) (binSize : String) :
    (binSize ∉ SWIFT_PROMPT_BIN_SIZES →
      prompt_directory_structure grb useDefault binSize = (Except.error PyErr.valueError, [])) ∧
    (binSize ∈ SWIFT_PROMPT_BIN_SIZES →
      ∃ paths dirs, prompt_directory_structure grb useDefault binSize = (Except.ok paths, dirs)) := by
  constructor
  · intro h
    simp [prompt_directory_structure, h]
  · intro h
    unfold prompt_directory_structure
    rw [if_pos h]
    exact ⟨_, _, rfl⟩

/-- Witness for C9: the unlisted bin size 5ms is rejected with nothing
created, and the listed bin size 1s is accepted. -/
theorem c9_prompt_bin_validation_witness :
    prompt_directory_structure ("070809") false ("5ms") = (Except.error PyErr.valueError, []) ∧
    ∃ paths dirs, prompt_directory_structure ("070809") false ("1s") = (Except.ok paths, dirs) :=
  ⟨(c9_prompt_bin_validation ("070809") false ("5ms")).1 (by decide),
   (c9_prompt_bin_validation ("070809") false ("1s")).2 (by decide)⟩

/- ---------------------------------------------------------------------
Claim C10: unknown GRB names resolve to trigger '0'.
--------------------------------------------------------------------- -/

/-- Claim C10: a GRB name missing from the concatenated short/long lookup
table makes `get_trigger_number` return the string 0 instead of raising,
and the Swift fetch phase silently issues its first network request to the
burst-analyser URL built from the 00 template and that 0 trigger. -/
theorem c10_unknown_grb_trigger (table : List (String × String)) (grb : String)
    (web : String → Bool) (dl : String → FileContent) (drv : Driver) (fs : FSt)
    (h : ∀ row ∈ table, row.1 ≠ grb)
    (h2 : fs.lookup (afterglow_directory_structure grb false ("flux") ("BAT+XRT")).2.1 = none) :
    get_trigger_number table grb = ("0")
    ∧ burstAnalyserUrl table grb = ("http://www.swift.ac.uk/burst_analyser/000/")
    ∧ (collect_swift_data web dl drv table grb false ("flux") fs).net.head?
        = some ("http://www.swift.ac.uk/burst_analyser/000/") := by
  have hf : table.filter (fun row => decide (row.1 = grb)) = [] := by
    simp only [List.filter_eq_nil_iff]
    intro a ha
    simpa using h a ha
  have h0 : get_trigger_number table grb = ("0") := by
    simp [get_trigger_number, hf]
  have hurl : burstAnalyserUrl table grb = ("http://www.swift.ac.uk/burst_analyser/000/") := by
    rw [burstAnalyserUrl, h0]
    decide
  refine ⟨h0, hurl, ?_⟩
  simp only [collect_swift_data]
  rw [if_pos (by decide)]
  rw [h2]
  simp only [Option.isSome_none, Bool.false_eq_true, if_false]
  by_cases hw : web (burstAnalyserUrl table grb)
  · rw [if_pos hw]
    simp [hurl]
  · rw [if_neg hw]
    cases hres : (if (("flux") == ("flux")) = true
        then process_integrated_flux_data drv dl table grb
          (afterglow_directory_structure grb false ("flux") ("BAT+XRT")).2.1 fs
        else process_fluxdensity_data drv dl table grb
          (afterglow_directory_structure grb false ("flux") ("BAT+XRT")).2.1 fs).result with
    | error e => simp [hres, hurl]
    | ok v => simp [hres, hurl]

/-- Witness for C10: the empty lookup table and an absent raw file. -/
theorem c10_unknown_grb_trigger_witness :
    get_trigger_number [] ("990101") = ("0")
    ∧ burstAnalyserUrl [] ("990101") = ("http://www.swift.ac.uk/burst_analyser/000/")
    ∧ (collect_swift_data (fun _ => false) (fun _ => FileContent.text [])
        ⟨Except.ok (), Except.ok ("u")⟩ [] ("990101") false ("flux") []).net.head?
        = some ("http://www.swift.ac.uk/burst_analyser/000/") :=
  c10_unknown_grb_trigger [] ("990101") (fun _ => false) (fun _ => FileContent.text [])
    ⟨Except.ok (), Except.ok ("u")⟩ [] (by simp) rfl

/- ---------------------------------------------------------------------
Claim C8: processing with no raw data is a hard stop.
--------------------------------------------------------------------- -/

/-- Claim C8: each of the three sorters, asked to process while both its
processed file and its raw file are absent, raises the raw-data-missing
error to the caller instead of warning and continuing. -/
theorem c8_raw_missing_hard_stop (fs : FSt) (rawfile fullfile dataMode : String)
    (grb transient transientType : String) (useDefault : Bool) :
    (fs.lookup fullfile = none → fs.lookup rawfile = none →
      (sort_swift_data rawfile fullfile dataMode fs).result = Except.error PyErr.dataExists)
    ∧ (∀ dir raw proc,
        (prompt_directory_structure grb useDefault ("2ms")).1 = Except.ok (dir, raw, proc) →
        fs.lookup proc = none → fs.lookup raw = none →
        (sort_swift_prompt_data grb useDefault fs).result = Except.error PyErr.dataExists)
    ∧ (fs.lookup (transient_directory_structure transient useDefault transientType).2.2 = none →
        fs.lookup (transient_directory_structure transient useDefault transientType).2.1 = none →
        (sort_open_access_data transient useDefault transientType fs).result
          = Except.error PyErr.dataExists) := by
  refine ⟨?_, ?_, ?_⟩
  · intro h1 h2
    simp [sort_swift_data, h1, h2]
  · intro dir raw proc hp h1 h2
    simp [sort_swift_prompt_data, hp, h1, h2]
  · intro h1 h2
    simp only [sort_open_access_data]
    rw [h1, h2]

/-- Witness for C8: the empty filesystem. -/
theorem c8_raw_missing_hard_stop_witness :
    (sort_swift_data ("r.csv") ("f.csv") ("flux") []).result = Except.error PyErr.dataExists
    ∧ (sort_swift_prompt_data ("070809") false []).result = Except.error PyErr.dataExists
    ∧ (sort_open_access_data ("x") false ("supernova") []).result = Except.error PyErr.dataExists :=
  ⟨(c8_raw_missing_hard_stop [] ("r.csv") ("f.csv") ("flux") ("070809") ("x") ("supernova") false).1
      rfl rfl,
   (c8_raw_missing_hard_stop [] ("r.csv") ("f.csv") ("flux") ("070809") ("x") ("supernova") false).2.1
      _ _ _ rfl rfl rfl,
   (c8_raw_missing_hard_stop [] ("r.csv") ("f.csv") ("flux") ("070809") ("x") ("supernova") false).2.2
      rfl rfl⟩

/- ---------------------------------------------------------------------
Claim C1: the epoch fallback policy (code bug in the kilonova branch).
--------------------------------------------------------------------- -/

/-- Claim C1 (code bug): a kilonova whose metadata `timeofmerger` is absent
(NaN) makes `sort_open_access_data` call `get_t0_from_grb`, whose body
reads the unbound name `timeofevent`, so the run raises NameError instead
of warning and leaving the epoch unresolved as the claim and the spec
describe. -/
theorem c1_kilonova_nan_raises_name_error :
    (sort_open_access_data ("x") false ("kilonova")
        [(("kilonova/x/x_rawdata.csv"),
            FileContent.catalogCsv [⟨0, 20, 1 / 10, ("g"), ("AB")⟩]),
         (("kilonova/x/metadata.csv"), FileContent.metaCsv none)]).result
      = Except.error PyErr.nameError := by
  rfl

/- ---------------------------------------------------------------------
Claim C3: exception swallowing in the session-driven fetchers.
--------------------------------------------------------------------- -/

/-- Counterexample to C3 as stated: `process_integrated_flux_data` wraps
none of its interactive sequence in a handler, so an exception raised
during the interaction propagates to the caller instead of being caught
and logged. -/
theorem c3_integrated_flux_propagates_cex :
    (process_integrated_flux_data ⟨Except.ok (), Except.error PyErr.runtimeError⟩
        (fun _ => FileContent.text []) [] ("070809") ("raw.csv") []).result
      = Except.error PyErr.runtimeError := rfl

/-- Claim C3 as amended: for `process_fluxdensity_data` and
`collect_swift_prompt_data`, any exception raised by the interactive
sequence after page navigation is caught and only logged: the fetch
returns normally and the filesystem is unchanged, so the failure is
observable only as the continued absence of the raw file
(`process_integrated_flux_data`, by contrast, propagates). -/
theorem c3_session_exception_swallowed (drv : Driver) (dl : String → FileContent)
    (table : List (String × String)) (grb rawfile binSize : String) (fs : FSt) (e : PyErr)
    (hnav : drv.navigate = Except.ok ()) (hint : drv.interact = Except.error e)
    (hbin : binSize ∈ SWIFT_PROMPT_BIN_SIZES) :
    ((process_fluxdensity_data drv dl table grb rawfile fs).result = Except.ok ()
      ∧ (process_fluxdensity_data drv dl table grb rawfile fs).fs = fs)
    ∧ ((collect_swift_prompt_data drv dl grb false binSize fs).result = Except.ok ()
      ∧ (collect_swift_prompt_data drv dl grb false binSize fs).fs = fs) := by
  constructor
  · unfold process_fluxdensity_data
    rw [hnav, hint]
    exact ⟨rfl, rfl⟩
  · have hp : (prompt_directory_structure grb false binSize).1
        = Except.ok ((("GRBData/GRB") ++ grb ++ ("/")) ++ ("prompt/"),
            ((("GRBData/GRB") ++ grb ++ ("/")) ++ ("prompt/")) ++ binSize ++ ("_lc_ascii.dat"),
            ((("GRBData/GRB") ++ grb ++ ("/")) ++ ("prompt/")) ++ binSize ++ ("_lc.csv")) := by
      unfold prompt_directory_structure
      rw [if_pos hbin]
      rfl
    simp only [collect_swift_prompt_data]
    rw [hp, hnav, hint]
    dsimp only
    constructor
    · split
      · rfl
      · rfl
    · split
      · rfl
      · rfl

/-- Witness for the amended C3 at a concrete failing interaction. -/
theorem c3_session_exception_swallowed_witness :
    ((process_fluxdensity_data ⟨Except.ok (), Except.error PyErr.runtimeError⟩
        (fun _ => FileContent.text []) [] ("070809") ("raw.csv") []).result = Except.ok ()
      ∧ (process_fluxdensity_data ⟨Except.ok (), Except.error PyErr.runtimeError⟩
        (fun _ => FileContent.text []) [] ("070809") ("raw.csv") []).fs = [])
    ∧ ((collect_swift_prompt_data ⟨Except.ok (), Except.error PyErr.runtimeError⟩
        (fun _ => FileContent.text []) ("070809") false ("2ms") []).result = Except.ok ()
      ∧ (collect_swift_prompt_data ⟨Except.ok (), Except.error PyErr.runtimeError⟩
        (fun _ => FileContent.text []) ("070809") false ("2ms") []).fs = []) :=
  c3_session_exception_swallowed ⟨Except.ok (), Except.error PyErr.runtimeError⟩
    (fun _ => FileContent.text []) [] ("070809") ("raw.csv") ("2ms") [] PyErr.runtimeError
    rfl rfl (by decide)

/- ---------------------------------------------------------------------
Claim C2: idempotent caching of the orchestration entry points.
--------------------------------------------------------------------- -/

/-- Counterexample to C2 as stated: with the processed (and raw) files
already present, `get_xrt_data_from_swift` still performs two network
touches, and `get_afterglow_data_from_swift` raises ValueError (its cached
collect branch returns a three-element tuple that the caller unpacks into
two names) instead of returning a Dataset. -/
theorem c2_second_invocation_cex :
    (get_xrt_data_from_swift (fun _ => false) (fun _ => FileContent.xrtRaw []) [] ("x")
        ("flux") false
        [(("GRBData/GRBx/afterglow/flux/GRBx_xrt_rawSwiftData.csv"), FileContent.xrtRaw []),
         (("GRBData/GRBx/afterglow/flux/GRBx_xrt_csv"), FileContent.xrtCsv [])]).net
      = [("https://www.swift.ac.uk/xrt_curves/000/flux.qdp"),
         ("https://www.swift.ac.uk/xrt_curves/000/flux.qdp")]
    ∧ (get_afterglow_data_from_swift (fun _ => false) (fun _ => FileContent.text [])
        ⟨Except.ok (), Except.ok ("u")⟩ [] ("x") ("flux") false
        [(("GRBData/GRBx/afterglow/flux/GRBx_rawSwiftData.csv"), FileContent.text []),
         (("GRBData/GRBx/afterglow/flux/GRBx.csv"), FileContent.text [])]).result
      = Except.error PyErr.valueError := by
  exact ⟨rfl, rfl⟩

/-- Claim C2 as amended: with both raw and processed files present,
`get_open_transient_catalog_data` and `get_prompt_data_from_swift` perform
zero network calls, leave the filesystem unchanged and return the Dataset
read from the processed file (for the prompt pipeline, re-read with a tab
separator rather than the frame written on the first run);
`get_afterglow_data_from_swift` instead raises ValueError whenever its raw
file already exists, touching neither the network nor the filesystem, and
`get_xrt_data_from_swift` performs network calls on every invocation;
`collect_swift_data` and `sort_swift_data` each short-circuit with no
network traffic and no writes when their output file already exists. -/
theorem c2_existing_files_caching (web : String → Bool) (dl : String → FileContent)
    (drv : Driver) (table : List (String × String))
    (grb transient transientType dataMode rawfile fullfile : String) (fs : FSt) :
    (∀ rc d,
      fs.lookup (transient_directory_structure transient false transientType).2.1 = some rc →
      fs.lookup (transient_directory_structure transient false transientType).2.2
          = some (FileContent.processedCsv d) →
      (get_open_transient_catalog_data web dl transient transientType false fs).net = []
      ∧ (get_open_transient_catalog_data web dl transient transientType false fs).result
          = Except.ok (Dataset.catalogFrame d)
      ∧ (get_open_transient_catalog_data web dl transient transientType false fs).fs = fs)
    ∧ (∀ rc q dir raw proc,
      (prompt_directory_structure grb false ("2ms")).1 = Except.ok (dir, raw, proc) →
      fs.lookup raw = some rc →
      fs.lookup proc = some (FileContent.promptCsv q) →
      (get_prompt_data_from_swift drv dl grb ("2ms") false fs).net = []
      ∧ (get_prompt_data_from_swift drv dl grb ("2ms") false fs).result
          = Except.ok (Dataset.promptTabReread q)
      ∧ (get_prompt_data_from_swift drv dl grb ("2ms") false fs).fs = fs)
    ∧ (∀ rc, dataMode ∈ [("flux"), ("flux_density")] →
      fs.lookup (afterglow_directory_structure grb false dataMode ("BAT+XRT")).2.1 = some rc →
      (get_afterglow_data_from_swift web dl drv table grb dataMode false fs).result
          = Except.error PyErr.valueError
      ∧ (get_afterglow_data_from_swift web dl drv table grb dataMode false fs).net = []
      ∧ (get_afterglow_data_from_swift web dl drv table grb dataMode false fs).fs = fs)
    ∧ ((get_xrt_data_from_swift web dl table grb dataMode false fs).net ≠ [])
    ∧ (∀ c, fs.lookup fullfile = some c →
      (sort_swift_data rawfile fullfile dataMode fs).net = []
      ∧ (sort_swift_data rawfile fullfile dataMode fs).fs = fs
      ∧ (sort_swift_data rawfile fullfile dataMode fs).result = Except.ok ())
    ∧ (∀ rc, dataMode ∈ [("flux"), ("flux_density")] →
      fs.lookup (afterglow_directory_structure grb false dataMode ("BAT+XRT")).2.1 = some rc →
      (collect_swift_data web dl drv table grb false dataMode fs).net = []
      ∧ (collect_swift_data web dl drv table grb false dataMode fs).fs = fs) := by
  refine ⟨?_, ?_, ?_, ?_, ?_, ?_⟩
  · intro rc d h1 h2
    have hc : collect_open_catalog_data web dl transient false transientType fs
        = ⟨fs, [], Except.ok ()⟩ := by
      simp only [collect_open_catalog_data]
      rw [h1]
      rfl
    have hs : sort_open_access_data transient false transientType fs
        = ⟨fs, [], Except.ok (Dataset.catalogFrame d)⟩ := by
      simp only [sort_open_access_data]
      rw [h2]
    simp only [get_open_transient_catalog_data]
    rw [hc]
    dsimp only
    rw [hs]
    exact ⟨rfl, rfl, rfl⟩
  · intro rc q dir raw proc hp h1 h2
    have hc : collect_swift_prompt_data drv dl grb false ("2ms") fs
        = ⟨fs, [], Except.ok ()⟩ := by
      simp only [collect_swift_prompt_data]
      rw [hp]
      dsimp only
      rw [h1]
      rfl
    have hs : sort_swift_prompt_data grb false fs
        = ⟨fs, [], Except.ok (Dataset.promptTabReread q)⟩ := by
      simp only [sort_swift_prompt_data]
      rw [hp]
      dsimp only
      rw [h2]
    simp only [get_prompt_data_from_swift]
    rw [hc]
    dsimp only
    rw [hs]
    exact ⟨rfl, rfl, rfl⟩
  · intro rc hdm h1
    have hc : collect_swift_data web dl drv table grb false dataMode fs
        = ⟨fs, [],
            Except.ok [(afterglow_directory_structure grb false dataMode ("BAT+XRT")).1,
              (afterglow_directory_structure grb false dataMode ("BAT+XRT")).2.1,
              (afterglow_directory_structure grb false dataMode ("BAT+XRT")).2.2]⟩ := by
      simp only [collect_swift_data]
      rw [if_pos hdm, h1]
      rfl
    simp only [get_afterglow_data_from_swift]
    rw [hc]
    exact ⟨rfl, rfl, rfl⟩
  · simp only [get_xrt_data_from_swift]
    by_cases hw : web (("https://www.swift.ac.uk/xrt_curves/00")
        ++ get_trigger_number table grb ++ ("/flux.qdp")) = true
    · rw [if_pos hw]
      simp
    · rw [if_neg hw]
      cases hdl : dl (("https://www.swift.ac.uk/xrt_curves/00")
          ++ get_trigger_number table grb ++ ("/flux.qdp")) <;> simp [hdl]
  · intro c h
    refine ⟨?_, ?_, ?_⟩ <;> simp [sort_swift_data, h]
  · intro rc hdm h1
    have hc : collect_swift_data web dl drv table grb false dataMode fs
        = ⟨fs, [],
            Except.ok [(afterglow_directory_structure grb false dataMode ("BAT+XRT")).1,
              (afterglow_directory_structure grb false dataMode ("BAT+XRT")).2.1,
              (afterglow_directory_structure grb false dataMode ("BAT+XRT")).2.2]⟩ := by
      simp only [collect_swift_data]
      rw [if_pos hdm, h1]
      rfl
    rw [hc]
    exact ⟨rfl, rfl⟩

/-- Witness for the amended C2: a filesystem already holding the raw and
processed files of each pipeline. -/
theorem c2_existing_files_caching_witness :
    ((get_open_transient_catalog_data (fun _ => false) (fun _ => FileContent.text [])
        ("x") ("supernova") false
        [(("supernova/x/x_rawdata.csv"), FileContent.catalogCsv []),
         (("supernova/x/x_data.csv"), FileContent.processedCsv []),
         (("GRBData/GRBx/prompt/2ms_lc_ascii.dat"), FileContent.promptDat []),
         (("GRBData/GRBx/prompt/2ms_lc.csv"), FileContent.promptCsv []),
         (("GRBData/GRBx/afterglow/flux/GRBx_rawSwiftData.csv"), FileContent.text []),
         (("f.csv"), FileContent.text [])]).net = []
      ∧ (get_open_transient_catalog_data (fun _ => false) (fun _ => FileContent.text [])
        ("x") ("supernova") false
        [(("supernova/x/x_rawdata.csv"), FileContent.catalogCsv []),
         (("supernova/x/x_data.csv"), FileContent.processedCsv []),
         (("GRBData/GRBx/prompt/2ms_lc_ascii.dat"), FileContent.promptDat []),
         (("GRBData/GRBx/prompt/2ms_lc.csv"), FileContent.promptCsv []),
         (("GRBData/GRBx/afterglow/flux/GRBx_rawSwiftData.csv"), FileContent.text []),
         (("f.csv"), FileContent.text [])]).result = Except.ok (Dataset.catalogFrame [])
      ∧ (get_open_transient_catalog_data (fun _ => false) (fun _ => FileContent.text [])
        ("x") ("supernova") false
        [(("supernova/x/x_rawdata.csv"), FileContent.catalogCsv []),
         (("supernova/x/x_data.csv"), FileContent.processedCsv []),
         (("GRBData/GRBx/prompt/2ms_lc_ascii.dat"), FileContent.promptDat []),
         (("GRBData/GRBx/prompt/2ms_lc.csv"), FileContent.promptCsv []),
         (("GRBData/GRBx/afterglow/flux/GRBx_rawSwiftData.csv"), FileContent.text []),
         (("f.csv"), FileContent.text [])]).fs
          = [(("supernova/x/x_rawdata.csv"), FileContent.catalogCsv []),
             (("supernova/x/x_data.csv"), FileContent.processedCsv []),
             (("GRBData/GRBx/prompt/2ms_lc_ascii.dat"), FileContent.promptDat []),
             (("GRBData/GRBx/prompt/2ms_lc.csv"), FileContent.promptCsv []),
             (("GRBData/GRBx/afterglow/flux/GRBx_rawSwiftData.csv"), FileContent.text []),
             (("f.csv"), FileContent.text [])])
    ∧ ((get_prompt_data_from_swift ⟨Except.ok (), Except.ok ("u")⟩ (fun _ => FileContent.text [])
        ("x") ("2ms") false
        [(("supernova/x/x_rawdata.csv"), FileContent.catalogCsv []),
         (("supernova/x/x_data.csv"), FileContent.processedCsv []),
         (("GRBData/GRBx/prompt/2ms_lc_ascii.dat"), FileContent.promptDat []),
         (("GRBData/GRBx/prompt/2ms_lc.csv"), FileContent.promptCsv []),
         (("GRBData/GRBx/afterglow/flux/GRBx_rawSwiftData.csv"), FileContent.text []),
         (("f.csv"), FileContent.text [])]).net = []
      ∧ (get_prompt_data_from_swift ⟨Except.ok (), Except.ok ("u")⟩ (fun _ => FileContent.text [])
        ("x") ("2ms") false
        [(("supernova/x/x_rawdata.csv"), FileContent.catalogCsv []),
         (("supernova/x/x_data.csv"), FileContent.processedCsv []),
         (("GRBData/GRBx/prompt/2ms_lc_ascii.dat"), FileContent.promptDat []),
         (("GRBData/GRBx/prompt/2ms_lc.csv"), FileContent.promptCsv []),
         (("GRBData/GRBx/afterglow/flux/GRBx_rawSwiftData.csv"), FileContent.text []),
         (("f.csv"), FileContent.text [])]).result = Except.ok (Dataset.promptTabReread [])
      ∧ (get_prompt_data_from_swift ⟨Except.ok (), Except.ok ("u")⟩ (fun _ => FileContent.text [])
        ("x") ("2ms") false
        [(("supernova/x/x_rawdata.csv"), FileContent.catalogCsv []),
         (("supernova/x/x_data.csv"), FileContent.processedCsv []),
         (("GRBData/GRBx/prompt/2ms_lc_ascii.dat"), FileContent.promptDat []),
         (("GRBData/GRBx/prompt/2ms_lc.csv"), FileContent.promptCsv []),
         (("GRBData/GRBx/afterglow/flux/GRBx_rawSwiftData.csv"), FileContent.text []),
         (("f.csv"), FileContent.text [])]).fs
          = [(("supernova/x/x_rawdata.csv"), FileContent.catalogCsv []),
             (("supernova/x/x_data.csv"), FileContent.processedCsv []),
             (("GRBData/GRBx/prompt/2ms_lc_ascii.dat"), FileContent.promptDat []),
             (("GRBData/GRBx/prompt/2ms_lc.csv"), FileContent.promptCsv []),
             (("GRBData/GRBx/afterglow/flux/GRBx_rawSwiftData.csv"), FileContent.text []),
             (("f.csv"), FileContent.text [])])
    ∧ ((get_afterglow_data_from_swift (fun _ => false) (fun _ => FileContent.text [])
        ⟨Except.ok (), Except.ok ("u")⟩ [] ("x") ("flux") false
        [(("supernova/x/x_rawdata.csv"), FileContent.catalogCsv []),
         (("supernova/x/x_data.csv"), FileContent.processedCsv []),
         (("GRBData/GRBx/prompt/2ms_lc_ascii.dat"), FileContent.promptDat []),
         (("GRBData/GRBx/prompt/2ms_lc.csv"), FileContent.promptCsv []),
         (("GRBData/GRBx/afterglow/flux/GRBx_rawSwiftData.csv"), FileContent.text []),
         (("f.csv"), FileContent.text [])]).result = Except.error PyErr.valueError)
    ∧ ((get_xrt_data_from_swift (fun _ => false) (fun _ => FileContent.text []) [] ("x")
        ("flux") false
        [(("supernova/x/x_rawdata.csv"), FileContent.catalogCsv []),
         (("supernova/x/x_data.csv"), FileContent.processedCsv []),
         (("GRBData/GRBx/prompt/2ms_lc_ascii.dat"), FileContent.promptDat []),
         (("GRBData/GRBx/prompt/2ms_lc.csv"), FileContent.promptCsv []),
         (("GRBData/GRBx/afterglow/flux/GRBx_rawSwiftData.csv"), FileContent.text []),
         (("f.csv"), FileContent.text [])]).net ≠ [])
    ∧ ((sort_swift_data ("r.csv") ("f.csv") ("flux")
        [(("supernova/x/x_rawdata.csv"), FileContent.catalogCsv []),
         (("supernova/x/x_data.csv"), FileContent.processedCsv []),
         (("GRBData/GRBx/prompt/2ms_lc_ascii.dat"), FileContent.promptDat []),
         (("GRBData/GRBx/prompt/2ms_lc.csv"), FileContent.promptCsv []),
         (("GRBData/GRBx/afterglow/flux/GRBx_rawSwiftData.csv"), FileContent.text []),
         (("f.csv"), FileContent.text [])]).result = Except.ok ()) := by
  have h := c2_existing_files_caching (fun _ => false) (fun _ => FileContent.text [])
    ⟨Except.ok (), Except.ok ("u")⟩ [] ("x") ("x") ("supernova") ("flux") ("r.csv") ("f.csv")
    [(("supernova/x/x_rawdata.csv"), FileContent.catalogCsv []),
     (("supernova/x/x_data.csv"), FileContent.processedCsv []),
     (("GRBData/GRBx/prompt/2ms_lc_ascii.dat"), FileContent.promptDat []),
     (("GRBData/GRBx/prompt/2ms_lc.csv"), FileContent.promptCsv []),
     (("GRBData/GRBx/afterglow/flux/GRBx_rawSwiftData.csv"), FileContent.text []),
     (("f.csv"), FileContent.text [])]
  exact ⟨h.1 (FileContent.catalogCsv []) [] rfl rfl,
    h.2.1 (FileContent.promptDat []) [] (("GRBData/GRB") ++ ("x") ++ ("/") ++ ("prompt/"))
      (("GRBData/GRBx/prompt/2ms_lc_ascii.dat")) (("GRBData/GRBx/prompt/2ms_lc.csv")) rfl rfl rfl,
    (h.2.2.1 (FileContent.text []) (by decide) rfl).1,
    h.2.2.2.1,
    (h.2.2.2.2.1 (FileContent.text []) rfl).2.2⟩

/- ---------------------------------------------------------------------
Claim C4: the two-phase pipelines and their return values.
--------------------------------------------------------------------- -/

/-- Counterexample to C4 as stated: a fully successful first run of
`get_afterglow_data_from_swift` and of `get_xrt_data_from_swift` returns
Python None (no Dataset), contradicting the claim that every entry point
returns the in-memory Dataset to the caller. -/
theorem c4_returns_none_cex :
    (get_afterglow_data_from_swift (fun _ => false) (fun _ => FileContent.text [("1 2\n")])
        ⟨Except.ok (), Except.ok ("u")⟩ [] ("x") ("flux") false []).result = Except.ok none
    ∧ (get_xrt_data_from_swift (fun _ => false) (fun _ => FileContent.xrtRaw []) [] ("x")
        ("flux") false []).result = Except.ok none := by
  exact ⟨rfl, rfl⟩

/-- Claim C4 as amended: each entry point is the fetch-then-process
pipeline — on a successful run `get_afterglow_data_from_swift` (flux
mode), `get_prompt_data_from_swift` and `get_open_transient_catalog_data`
acquire the raw file when absent and produce the processed file, and
`get_xrt_data_from_swift` fetches and produces both unconditionally — but
only the prompt and open-catalog entry points return the in-memory
Dataset; the two Swift afterglow entry points return None. -/
theorem c4_two_phase_pipeline (web : String → Bool) (dl : String → FileContent) (drv : Driver)
    (table : List (String × String)) (grb transient transientType dataMode u : String)
    (ls : List String) (rowsX : List XrtRow) (m : List (List Rat))
    (rawRows : List CatalogRow) (t0 : Rat) (fs : FSt) :
    (fs.lookup (afterglow_directory_structure grb false ("flux") ("BAT+XRT")).2.1 = none →
      fs.lookup (afterglow_directory_structure grb false ("flux") ("BAT+XRT")).2.2 = none →
      web (burstAnalyserUrl table grb) = false →
      drv.navigate = Except.ok () → drv.interact = Except.ok u →
      dl u = FileContent.text ls →
      (get_afterglow_data_from_swift web dl drv table grb ("flux") false fs).fs.lookup
          (afterglow_directory_structure grb false ("flux") ("BAT+XRT")).2.1
        = some (FileContent.text ls)
      ∧ (get_afterglow_data_from_swift web dl drv table grb ("flux") false fs).fs.lookup
          (afterglow_directory_structure grb false ("flux") ("BAT+XRT")).2.2
        = some (FileContent.text (sortIntegratedLines ls))
      ∧ (get_afterglow_data_from_swift web dl drv table grb ("flux") false fs).result
        = Except.ok none)
    ∧ (web (("https://www.swift.ac.uk/xrt_curves/00") ++ get_trigger_number table grb
          ++ ("/flux.qdp")) = false →
      dl (("https://www.swift.ac.uk/xrt_curves/00") ++ get_trigger_number table grb
          ++ ("/flux.qdp")) = FileContent.xrtRaw rowsX →
      (get_xrt_data_from_swift web dl table grb dataMode false fs).fs.lookup
          (afterglow_directory_structure grb false dataMode ("xrt")).2.1
        = some (FileContent.xrtRaw rowsX)
      ∧ (get_xrt_data_from_swift web dl table grb dataMode false fs).fs.lookup
          (afterglow_directory_structure grb false dataMode ("xrt")).2.2
        = some (FileContent.xrtCsv (process_xrt_data rowsX))
      ∧ (get_xrt_data_from_swift web dl table grb dataMode false fs).result = Except.ok none)
    ∧ (∀ dir raw proc,
      (prompt_directory_structure grb false ("2ms")).1 = Except.ok (dir, raw, proc) →
      fs.lookup raw = none → fs.lookup proc = none →
      drv.navigate = Except.ok () → drv.interact = Except.ok u →
      dl (u ++ ("2ms") ++ ("_lc_ascii.dat")) = FileContent.promptDat m →
      (get_prompt_data_from_swift drv dl grb ("2ms") false fs).fs.lookup raw
        = some (FileContent.promptDat m)
      ∧ (get_prompt_data_from_swift drv dl grb ("2ms") false fs).fs.lookup proc
        = some (FileContent.promptCsv m)
      ∧ (get_prompt_data_from_swift drv dl grb ("2ms") false fs).result
        = Except.ok (Dataset.promptFrame m))
    ∧ (transientType ∈ [("kilonova"), ("supernova"), ("tidal_disruption_event")] →
      fs.lookup (transient_directory_structure transient false transientType).2.1 = none →
      fs.lookup (transient_directory_structure transient false transientType).2.2 = none →
      web (catalogUrl transient) = false →
      dl (catalogUrl transient) = FileContent.catalogCsv rawRows →
      dl (catalogMetaUrl transient) = FileContent.metaCsv (some t0) →
      (get_open_transient_catalog_data web dl transient transientType false fs).fs.lookup
          (transient_directory_structure transient false transientType).2.1
        = some (FileContent.catalogCsv rawRows)
      ∧ (get_open_transient_catalog_data web dl transient transientType false fs).fs.lookup
          (transient_directory_structure transient false transientType).2.2
        = some (FileContent.processedCsv ((openAccessWithFlux rawRows).map (addTimeDays t0)))
      ∧ (get_open_transient_catalog_data web dl transient transientType false fs).result
        = Except.ok (Dataset.catalogFrame ((openAccessWithFlux rawRows).map (addTimeDays t0)))) := by
  refine ⟨?_, ?_, ?_, ?_⟩
  · intro h1 h2 hw hnav hint hdl
    have hne : (afterglow_directory_structure grb false ("flux") ("BAT+XRT")).2.1
        ≠ (afterglow_directory_structure grb false ("flux") ("BAT+XRT")).2.2 :=
      append_ne_of_length_ne _ _ _ (by decide)
    have ho : process_integrated_flux_data drv dl table grb
        (afterglow_directory_structure grb false ("flux") ("BAT+XRT")).2.1 fs
        = ⟨fs.insert (afterglow_directory_structure grb false ("flux") ("BAT+XRT")).2.1
              (FileContent.text ls),
            [burstAnalyserUrl table grb, u], Except.ok ()⟩ := by
      simp only [process_integrated_flux_data]
      rw [hnav]
      dsimp only
      rw [hint]
      dsimp only
      rw [hdl]
    have hc : collect_swift_data web dl drv table grb false ("flux") fs
        = ⟨fs.insert (afterglow_directory_structure grb false ("flux") ("BAT+XRT")).2.1
              (FileContent.text ls),
            [burstAnalyserUrl table grb, burstAnalyserUrl table grb, u],
            Except.ok [(afterglow_directory_structure grb false ("flux") ("BAT+XRT")).2.1,
              (afterglow_directory_structure grb false ("flux") ("BAT+XRT")).2.2]⟩ := by
      simp only [collect_swift_data]
      rw [if_pos (by decide), h1]
      simp only [Option.isSome_none, Bool.false_eq_true, if_false]
      rw [hw]
      simp only [Bool.false_eq_true, if_false]
      rw [if_pos (by decide), ho]
    have hl1 : ((fs.insert (afterglow_directory_structure grb false ("flux") ("BAT+XRT")).2.1
        (FileContent.text ls)).lookup
          (afterglow_directory_structure grb false ("flux") ("BAT+XRT")).2.1)
        = some (FileContent.text ls) := FSt.lookup_insert_self _ _ _
    have hl2 : ((fs.insert (afterglow_directory_structure grb false ("flux") ("BAT+XRT")).2.1
        (FileContent.text ls)).lookup
          (afterglow_directory_structure grb false ("flux") ("BAT+XRT")).2.2) = none := by
      rw [FSt.lookup_insert_ne _ _ _ _ hne, h2]
    have hs : sort_swift_data (afterglow_directory_structure grb false ("flux") ("BAT+XRT")).2.1
        (afterglow_directory_structure grb false ("flux") ("BAT+XRT")).2.2 ("flux")
        (fs.insert (afterglow_directory_structure grb false ("flux") ("BAT+XRT")).2.1
          (FileContent.text ls))
        = ⟨(fs.insert (afterglow_directory_structure grb false ("flux") ("BAT+XRT")).2.1
              (FileContent.text ls)).insert
            (afterglow_directory_structure grb false ("flux") ("BAT+XRT")).2.2
            (FileContent.text (sortIntegratedLines ls)), [], Except.ok ()⟩ := by
      simp only [sort_swift_data]
      rw [hl2]
      simp only [Option.isSome_none, Bool.false_eq_true, if_false]
      rw [hl1]
      simp only [Option.isNone_some, Bool.false_eq_true, if_false]
      rw [if_pos (by decide)]
      simp only [sort_integrated_flux_data]
      rw [hl1]
    simp only [get_afterglow_data_from_swift]
    rw [hc]
    dsimp only
    rw [hs]
    dsimp only
    refine ⟨?_, ?_, rfl⟩
    · rw [FSt.lookup_insert_ne _ _ _ _ (Ne.symm hne), FSt.lookup_insert_self]
    · rw [FSt.lookup_insert_self]
  · intro hw hdl
    have hne : (afterglow_directory_structure grb false dataMode ("xrt")).2.2
        ≠ (afterglow_directory_structure grb false dataMode ("xrt")).2.1 :=
      append_ne_of_length_ne _ _ _ (by decide)
    simp only [get_xrt_data_from_swift]
    rw [hw]
    simp only [Bool.false_eq_true, if_false]
    rw [hdl]
    dsimp only
    refine ⟨?_, ?_, rfl⟩
    · rw [FSt.lookup_insert_ne _ _ _ _ hne, FSt.lookup_insert_self]
    · rw [FSt.lookup_insert_self]
  · intro dir raw proc hp h1 h2 hnav hint hdl
    have hp0 : (prompt_directory_structure grb false ("2ms")).1
        = Except.ok ((("GRBData/GRB") ++ grb ++ ("/")) ++ ("prompt/"),
            ((("GRBData/GRB") ++ grb ++ ("/")) ++ ("prompt/")) ++ ("2ms") ++ ("_lc_ascii.dat"),
            ((("GRBData/GRB") ++ grb ++ ("/")) ++ ("prompt/")) ++ ("2ms") ++ ("_lc.csv")) := by
      unfold prompt_directory_structure
      rw [if_pos (by decide)]
      rfl
    have h3 := hp0.symm.trans hp
    injection h3 with h4
    injection h4 with hd h5
    injection h5 with hr hpr
    subst hd
    subst hr
    subst hpr
    have hne : ((("GRBData/GRB") ++ grb ++ ("/")) ++ ("prompt/")) ++ ("2ms") ++ ("_lc_ascii.dat")
        ≠ ((("GRBData/GRB") ++ grb ++ ("/")) ++ ("prompt/")) ++ ("2ms") ++ ("_lc.csv") :=
      append_ne_of_length_ne _ _ _ (by decide)
    have hcol : collect_swift_prompt_data drv dl grb false ("2ms") fs
        = ⟨fs.insert (((("GRBData/GRB") ++ grb ++ ("/")) ++ ("prompt/")) ++ ("2ms")
              ++ ("_lc_ascii.dat")) (FileContent.promptDat m),
            [("https://swift.gsfc.nasa.gov/results/batgrbcat/")
                ++ (if String.startsWith grb ("GRB") = true then grb else ("GRB") ++ grb)
                ++ ("/data_product/"),
              u ++ ("2ms") ++ ("_lc_ascii.dat")], Except.ok ()⟩ := by
      simp only [collect_swift_prompt_data]
      rw [hp0]
      dsimp only
      rw [h1]
      simp only [Option.isSome_none, Bool.false_eq_true, if_false]
      rw [hnav]
      dsimp only
      rw [hint]
      dsimp only
      rw [hdl]
    have hl1 : (fs.insert (((("GRBData/GRB") ++ grb ++ ("/")) ++ ("prompt/")) ++ ("2ms")
          ++ ("_lc_ascii.dat")) (FileContent.promptDat m)).lookup
        (((("GRBData/GRB") ++ grb ++ ("/")) ++ ("prompt/")) ++ ("2ms") ++ ("_lc_ascii.dat"))
        = some (FileContent.promptDat m) := FSt.lookup_insert_self _ _ _
    have hl2 : (fs.insert (((("GRBData/GRB") ++ grb ++ ("/")) ++ ("prompt/")) ++ ("2ms")
          ++ ("_lc_ascii.dat")) (FileContent.promptDat m)).lookup
        (((("GRBData/GRB") ++ grb ++ ("/")) ++ ("prompt/")) ++ ("2ms") ++ ("_lc.csv")) = none := by
      rw [FSt.lookup_insert_ne _ _ _ _ hne, h2]
    have hsort : sort_swift_prompt_data grb false
        (fs.insert (((("GRBData/GRB") ++ grb ++ ("/")) ++ ("prompt/")) ++ ("2ms")
          ++ ("_lc_ascii.dat")) (FileContent.promptDat m))
        = ⟨(fs.insert (((("GRBData/GRB") ++ grb ++ ("/")) ++ ("prompt/")) ++ ("2ms")
              ++ ("_lc_ascii.dat")) (FileContent.promptDat m)).insert
            (((("GRBData/GRB") ++ grb ++ ("/")) ++ ("prompt/")) ++ ("2ms") ++ ("_lc.csv"))
            (FileContent.promptCsv m),
            [], Except.ok (Dataset.promptFrame m)⟩ := by
      simp only [sort_swift_prompt_data]
      rw [hp0]
      dsimp only
      rw [hl2]
      dsimp only
      rw [hl1]
    simp only [get_prompt_data_from_swift]
    rw [hcol]
    dsimp only
    rw [hsort]
    dsimp only
    refine ⟨?_, ?_, rfl⟩
    · rw [FSt.lookup_insert_ne _ _ _ _ (Ne.symm hne), FSt.lookup_insert_self]
    · rw [FSt.lookup_insert_self]
  · intro htt h1 h2 hw hdl1 hdl2
    have hRawFull : (transient_directory_structure transient false transientType).2.1
        ≠ (transient_directory_structure transient false transientType).2.2 :=
      append_ne_of_length_ne _ _ _ (by decide)
    have hMetaFull : ((transient_directory_structure transient false transientType).1
          ++ ("metadata.csv"))
        ≠ (transient_directory_structure transient false transientType).2.2 :=
      Ne.symm (catalog_full_ne_meta _ _)
    have hMetaRaw : ((transient_directory_structure transient false transientType).1
          ++ ("metadata.csv"))
        ≠ (transient_directory_structure transient false transientType).2.1 :=
      Ne.symm (catalog_raw_ne_meta _ _)
    have hcol : collect_open_catalog_data web dl transient false transientType fs
        = ⟨(fs.insert (transient_directory_structure transient false transientType).2.1
              (FileContent.catalogCsv rawRows)).insert
            ((transient_directory_structure transient false transientType).1 ++ ("metadata.csv"))
            (FileContent.metaCsv (some t0)),
            [catalogUrl transient, catalogUrl transient, catalogMetaUrl transient],
            Except.ok ()⟩ := by
      simp only [collect_open_catalog_data]
      rw [h1]
      simp only [Option.isSome_none, Bool.false_eq_true, if_false]
      rw [if_pos htt, hw]
      simp only [Bool.false_eq_true, if_false]
      rw [h2]
      simp only [Option.isSome_none, Bool.false_eq_true, if_false]
      rw [hdl1, hdl2]
    have hl2 : (((fs.insert (transient_directory_structure transient false transientType).2.1
        (FileContent.catalogCsv rawRows)).insert
          ((transient_directory_structure transient false transientType).1 ++ ("metadata.csv"))
          (FileContent.metaCsv (some t0))).lookup
        (transient_directory_structure transient false transientType).2.2) = none := by
      rw [FSt.lookup_insert_ne _ _ _ _ hMetaFull, FSt.lookup_insert_ne _ _ _ _ hRawFull, h2]
    have hl1 : (((fs.insert (transient_directory_structure transient false transientType).2.1
        (FileContent.catalogCsv rawRows)).insert
          ((transient_directory_structure transient false transientType).1 ++ ("metadata.csv"))
          (FileContent.metaCsv (some t0))).lookup
        (transient_directory_structure transient false transientType).2.1)
        = some (FileContent.catalogCsv rawRows) := by
      rw [FSt.lookup_insert_ne _ _ _ _ hMetaRaw, FSt.lookup_insert_self]
    have hlm : (((fs.insert (transient_directory_structure transient false transientType).2.1
        (FileContent.catalogCsv rawRows)).insert
          ((transient_directory_structure transient false transientType).1 ++ ("metadata.csv"))
          (FileContent.metaCsv (some t0))).lookup
        ((transient_directory_structure transient false transientType).1 ++ ("metadata.csv")))
        = some (FileContent.metaCsv (some t0)) := FSt.lookup_insert_self _ _ _
    have hsort : sort_open_access_data transient false transientType
        ((fs.insert (transient_directory_structure transient false transientType).2.1
            (FileContent.catalogCsv rawRows)).insert
          ((transient_directory_structure transient false transientType).1 ++ ("metadata.csv"))
          (FileContent.metaCsv (some t0)))
        = ⟨((fs.insert (transient_directory_structure transient false transientType).2.1
              (FileContent.catalogCsv rawRows)).insert
            ((transient_directory_structure transient false transientType).1 ++ ("metadata.csv"))
            (FileContent.metaCsv (some t0))).insert
            (transient_directory_structure transient false transientType).2.2
            (FileContent.processedCsv ((openAccessWithFlux rawRows).map (addTimeDays t0))),
            [], Except.ok (Dataset.catalogFrame ((openAccessWithFlux rawRows).map (addTimeDays t0)))⟩ := by
      simp only [sort_open_access_data]
      rw [hl2]
      dsimp only
      rw [hl1]
      dsimp only
      rw [hlm]
      dsimp only
      simp only [Option.isNone_some, Bool.false_and, Bool.false_eq_true, if_false]
    simp only [get_open_transient_catalog_data]
    rw [hcol]
    dsimp only
    rw [hsort]
    dsimp only
    refine ⟨?_, ?_, rfl⟩
    · rw [FSt.lookup_insert_ne _ _ _ _ (Ne.symm hRawFull), FSt.lookup_insert_ne _ _ _ _ hMetaRaw,
        FSt.lookup_insert_self]
    · rw [FSt.lookup_insert_self]

/-- Download oracle for the C4 witness run: each endpoint of the four
pipelines answers with a payload of its expected kind. -/
def c4Dl : String → FileContent := fun s =>
  if s == ("u") then FileContent.text []
  else if s == (("u") ++ ("2ms") ++ ("_lc_ascii.dat")) then FileContent.promptDat []
  else if s == catalogMetaUrl ("x") then FileContent.metaCsv (some 0)
  else if s == catalogUrl ("x") then FileContent.catalogCsv []
  else FileContent.xrtRaw []

/-- Witness for the amended C4: successful first runs of all four
pipelines from the empty filesystem. -/
theorem c4_two_phase_pipeline_witness :
    ((get_afterglow_data_from_swift (fun _ => false) c4Dl ⟨Except.ok (), Except.ok ("u")⟩
        [] ("x") ("flux") false []).fs.lookup
        (afterglow_directory_structure ("x") false ("flux") ("BAT+XRT")).2.1
      = some (FileContent.text [])
     ∧ (get_afterglow_data_from_swift (fun _ => false) c4Dl ⟨Except.ok (), Except.ok ("u")⟩
        [] ("x") ("flux") false []).fs.lookup
        (afterglow_directory_structure ("x") false ("flux") ("BAT+XRT")).2.2
      = some (FileContent.text (sortIntegratedLines []))
     ∧ (get_afterglow_data_from_swift (fun _ => false) c4Dl ⟨Except.ok (), Except.ok ("u")⟩
        [] ("x") ("flux") false []).result = Except.ok none)
    ∧ ((get_xrt_data_from_swift (fun _ => false) c4Dl [] ("x") ("flux") false []).fs.lookup
        (afterglow_directory_structure ("x") false ("flux") ("xrt")).2.1
      = some (FileContent.xrtRaw [])
     ∧ (get_xrt_data_from_swift (fun _ => false) c4Dl [] ("x") ("flux") false []).fs.lookup
        (afterglow_directory_structure ("x") false ("flux") ("xrt")).2.2
      = some (FileContent.xrtCsv (process_xrt_data []))
     ∧ (get_xrt_data_from_swift (fun _ => false) c4Dl [] ("x") ("flux") false []).result
      = Except.ok none)
    ∧ ((get_prompt_data_from_swift ⟨Except.ok (), Except.ok ("u")⟩ c4Dl ("x") ("2ms")
        false []).fs.lookup
        (((("GRBData/GRB") ++ ("x") ++ ("/")) ++ ("prompt/")) ++ ("2ms") ++ ("_lc_ascii.dat"))
      = some (FileContent.promptDat [])
     ∧ (get_prompt_data_from_swift ⟨Except.ok (), Except.ok ("u")⟩ c4Dl ("x") ("2ms")
        false []).fs.lookup
        (((("GRBData/GRB") ++ ("x") ++ ("/")) ++ ("prompt/")) ++ ("2ms") ++ ("_lc.csv"))
      = some (FileContent.promptCsv [])
     ∧ (get_prompt_data_from_swift ⟨Except.ok (), Except.ok ("u")⟩ c4Dl ("x") ("2ms")
        false []).result = Except.ok (Dataset.promptFrame []))
    ∧ ((get_open_transient_catalog_data (fun _ => false) c4Dl ("x") ("supernova")
        false []).fs.lookup (transient_directory_structure ("x") false ("supernova")).2.1
      = some (FileContent.catalogCsv [])
     ∧ (get_open_transient_catalog_data (fun _ => false) c4Dl ("x") ("supernova")
        false []).fs.lookup (transient_directory_structure ("x") false ("supernova")).2.2
      = some (FileContent.processedCsv ((openAccessWithFlux []).map (addTimeDays 0)))
     ∧ (get_open_transient_catalog_data (fun _ => false) c4Dl ("x") ("supernova")
        false []).result
      = Except.ok (Dataset.catalogFrame ((openAccessWithFlux []).map (addTimeDays 0)))) := by
  have h := c4_two_phase_pipeline (fun _ => false) c4Dl ⟨Except.ok (), Except.ok ("u")⟩
    [] ("x") ("x") ("supernova") ("flux") ("u") [] [] [] [] 0 []
  exact ⟨h.1 rfl rfl rfl rfl rfl rfl,
    h.2.1 rfl rfl,
    h.2.2.1 ((("GRBData/GRB") ++ ("x") ++ ("/")) ++ ("prompt/"))
      (((("GRBData/GRB") ++ ("x") ++ ("/")) ++ ("prompt/")) ++ ("2ms") ++ ("_lc_ascii.dat"))
      (((("GRBData/GRB") ++ ("x") ++ ("/")) ++ ("prompt/")) ++ ("2ms") ++ ("_lc.csv"))
      rfl rfl rfl rfl rfl rfl,
    h.2.2.2 (by decide) rfl rfl rfl rfl rfl⟩
